import Mathlib

/-!
Verification development for the storefront backend in `src/app.py`
(Flask app brokering PayPal payments and posting Discord webhook
notifications).  Text values manipulated by the code (usernames, product
names, metadata, HTTP messages) are embedded as `List Char`; catalog
prices and parsed amounts as `ℚ`.  The two external collaborators (the
payment provider and the webhook endpoint) are embedded as explicit
behaviour records passed to the handler functions, and each handler
returns a trace recording which outbound calls were made, so that
"no provider call" and "no notification" properties are statable.
-/

namespace Oxide

/-- Characters of a string literal, the `List Char` form used throughout. -/
def chars (s : String) : List Char := s.toList

/-- `str.split(d)` from Python: split on every occurrence of the
delimiter character; `splitOnChar d []` is `[[]]` just as
`"".split(d)` is `[""]`. -/
def splitOnChar (d : Char) : List Char → List (List Char)
  | [] => [[]]
  | c :: rest =>
    if c = d then [] :: splitOnChar d rest
    else
      match splitOnChar d rest with
      | [] => [[c]]
      | s :: ss => (c :: s) :: ss

/-- `custom_data.split('|')` as used at `app.py:239`. -/
def splitPipe (s : List Char) : List (List Char) := splitOnChar '|' s

/-- The encoding `f"{username}|{product_name}"` written into the
transaction's `custom` field at `app.py:208`. -/
def encodeCustom (username product_name : List Char) : List Char :=
  username ++ '|' :: product_name

/-- The decoding `username, product_name = custom_data.split('|')` at
`app.py:239`: the tuple unpacking succeeds exactly when the split yields
two parts, and raises `ValueError` (here `none`) otherwise. -/
def decodeCustom (custom_data : List Char) : Option (List Char × List Char) :=
  match splitPipe custom_data with
  | [u, p] => some (u, p)
  | _ => none

/-- JSON values that can occur in the request bodies handled by the app. -/
inductive Json
  | jstr (s : List Char)
  | jnum (x : ℚ)
  | jbool (b : Bool)
  | jnull
deriving DecidableEq

/-- Python truthiness of a JSON value, as tested by
`not data.get(field)` at `app.py:83`: `None`, `""`, `0`, `False` are
falsy. -/
def truthy : Json → Bool
  | .jstr s => !s.isEmpty
  | .jnum x => decide (x ≠ 0)
  | .jbool b => b
  | .jnull => false

/-- A field is "missing" at `app.py:83` when it is absent or falsy. -/
def fieldMissing : Option Json → Bool
  | none => true
  | some v => !truthy v

/-- Python's `str.strip()`: drop whitespace from both ends. -/
def pyStrip (s : List Char) : List Char :=
  ((s.dropWhile Char.isWhitespace).reverse.dropWhile Char.isWhitespace).reverse

/-- Value of an unsigned decimal digit string. -/
def digitsVal (ds : List Char) : ℕ :=
  ds.foldl (fun a c => a * 10 + (c.toNat - ('0').toNat)) 0

/-- Python `float()` on an unsigned plain decimal literal: digits with at
most one `'.'`, at least one digit overall.  (The app only ever parses
the provider's decimal amount strings and client-supplied prices;
exponent, infinity and underscore forms accepted by CPython are not
modelled and simply fall outside this parser's domain.) -/
def parseUnsigned (s : List Char) : Option ℚ :=
  match splitOnChar '.' s with
  | [w] => if w ≠ [] ∧ w.all Char.isDigit then some (mkRat (digitsVal w) 1) else none
  | [w, f] =>
      if w ++ f ≠ [] ∧ (w ++ f).all Char.isDigit then
        some (mkRat (digitsVal w * 10 ^ f.length + digitsVal f) (10 ^ f.length))
      else none
  | _ => none

/-- Python `float()` on a plain decimal string, with optional sign. -/
def parsePyFloat : List Char → Option ℚ
  | '-' :: rest => (parseUnsigned rest).map (fun q => -q)
  | '+' :: rest => parseUnsigned rest
  | s => parseUnsigned s

/-- `float(price)` at `app.py:103` on a JSON value: numbers pass through,
booleans coerce to 0/1, strings are parsed, `None` raises `TypeError`
(modelled as `none`, caught at `app.py:106` like a parse failure). -/
def jsonFloat : Json → Option ℚ
  | .jnum x => some x
  | .jbool b => some (if b then 1 else 0)
  | .jstr s => parsePyFloat s
  | .jnull => none

/-- Outcome of the outbound webhook POST (`requests.post` at
`app.py:124`): an HTTP status, a timeout, or a connection-level error. -/
inductive WebhookOutcome
  | status (code : ℕ)
  | timeout
  | transportError
deriving DecidableEq

/-- Process environment: the `DISCORD_WEBHOOK` string (empty when the
variable is unset, `app.py:22`) and what the webhook POST would do if
performed. -/
structure Env where
  webhook : List Char
  webhookResult : WebhookOutcome
deriving DecidableEq

/-- Parsed JSON body of a POST to `/purchase`: the three fields the
handler reads, each absent or some JSON value. -/
structure PurchaseReq where
  username : Option Json
  item : Option Json
  price : Option Json
deriving DecidableEq

/-- Responses `handle_purchase` (`app.py:68-168`) can produce, one
constructor per `return` site. -/
inductive PurchaseResult
  | missingFields (fields : List (List Char))
  | emptyUsername
  | emptyItem
  | negativePrice
  | invalidPrice
  | notConfigured
  | success (username item : List Char) (price : ℚ)
  | badStatus (code : ℕ)
  | notifyTimeout
  | notifyTransport
  | internalError
deriving DecidableEq

/-- HTTP status code attached to each `handle_purchase` response. -/
def PurchaseResult.httpStatus : PurchaseResult → ℕ
  | .missingFields _ => 400
  | .emptyUsername => 400
  | .emptyItem => 400
  | .negativePrice => 400
  | .invalidPrice => 400
  | .notConfigured => 500
  | .success _ _ _ => 200
  | .badStatus _ => 500
  | .notifyTimeout => 500
  | .notifyTransport => 500
  | .internalError => 500

/-- The `"error"` (or, for success, `"message"`) string of each
`handle_purchase` response, as written in the source. -/
def PurchaseResult.message : PurchaseResult → List Char
  | .missingFields fs =>
      chars "Missing required fields: " ++ List.intercalate (chars ", ") fs
  | .emptyUsername => chars "Username cannot be empty"
  | .emptyItem => chars "Item cannot be empty"
  | .negativePrice => chars "Price cannot be negative"
  | .invalidPrice => chars "Price must be a valid number"
  | .notConfigured => chars "Discord webhook not configured"
  | .success _ _ _ => chars "Purchase recorded and Discord notification sent!"
  | .badStatus _ => chars "Failed to send Discord notification"
  | .notifyTimeout => chars "Discord notification timeout"
  | .notifyTransport => chars "Failed to send Discord notification"
  | .internalError => chars "Internal server error"

/-- `True` for the successful (HTTP 200) response of `handle_purchase`. -/
def PurchaseResult.succeeded : PurchaseResult → Bool
  | .success _ _ _ => true
  | _ => false

/-- `handle_purchase` (`app.py:68-168`) on a JSON request body.
Field order and check order follow the source: the truthiness-based
missing-fields check (`app.py:82-89`), then `.strip()` on `username`
and `item` (`app.py:91-92`; a non-string raises `AttributeError`, which
only the outer `except Exception` catches, giving the 500
`internalError` response of `app.py:163-168`), then the emptiness
checks, the `float` coercion and negativity check, the webhook
configuration check, and finally the outbound POST. -/
def handlePurchase (req : PurchaseReq) (env : Env) : PurchaseResult :=
  let missing : List (List Char) :=
    (if fieldMissing req.username then [chars "username"] else []) ++
    (if fieldMissing req.item then [chars "item"] else []) ++
    (if fieldMissing req.price then [chars "price"] else [])
  if missing ≠ [] then .missingFields missing
  else
    match req.username, req.item, req.price with
    | some uv, some iv, some pv =>
      match uv, iv with
      | .jstr us, .jstr its =>
        let u := pyStrip us
        let i := pyStrip its
        if u.isEmpty then .emptyUsername
        else if i.isEmpty then .emptyItem
        else
          match jsonFloat pv with
          | none => .invalidPrice
          | some x =>
            if x < 0 then .negativePrice
            else if env.webhook.isEmpty then .notConfigured
            else
              match env.webhookResult with
              | .status c =>
                  if c = 200 ∨ c = 204 then .success u i x else .badStatus c
              | .timeout => .notifyTimeout
              | .transportError => .notifyTransport
      | _, _ => .internalError
    | _, _, _ => .internalError

/-- `true` exactly on JSON strings (what `.strip()` requires). -/
def Json.isStr : Json → Bool
  | .jstr _ => true
  | _ => false

/-- `leadsWith n h` holds when `h` starts with `n`. -/
def leadsWith : List Char → List Char → Bool
  | [], _ => true
  | _ :: _, [] => false
  | a :: as, b :: bs => a = b && leadsWith as bs

/-- Substring containment on character lists, used to formalise
"the error message mentions …". -/
def containsSeq (needle : List Char) : List Char → Bool
  | [] => leadsWith needle []
  | c :: rest => leadsWith needle (c :: rest) || containsSeq needle rest

/-- A catalog entry (`PRODUCTS` at `app.py:32-53`): price and
description.  Every price in the catalog is an integral number of
dollars written as a Python float (`3.00`, `7.00`, …). -/
structure Product where
  price : ℚ
  description : List Char
deriving DecidableEq

/-- The `PRODUCTS` dict, as an association list in source order. -/
def PRODUCTS : List (List Char × Product) :=
  [ (chars "Mod",
      ⟨3, chars "Get Fly, Larger Anti-Raid Zone, Teleport and Mod Kits"⟩),
    (chars "Mod+",
      ⟨7, chars "Get Fly, XL Anti-Raid Zone, Teleport Players and Admin Kits w/Command Access"⟩),
    (chars "Hardcore VIP 1 Month",
      ⟨3, chars "VIP Kit and Rank for 1 month"⟩),
    (chars "Hardcore VIP Perma",
      ⟨30, chars "VIP Kit and Rank with a server Tag"⟩),
    (chars "Ultra Server Rank Package",
      ⟨50, chars "Mod+ on Oxide Build-A-Base, Perma Hardcore VIP, Ultra Tag, 3 Custom Tag Roll Tokens, 2 Custom Tag Token"⟩) ]

/-- Dict membership / indexing on `PRODUCTS`. -/
def catalogLookup (name : List Char) : Option Product :=
  (PRODUCTS.find? (fun e => e.1 = name)).map (·.2)

/-- Python's `str()` of the floats stored in the catalog: every catalog
price is a non-negative integral float, and CPython prints such a value
as its integer digits followed by `".0"` (so `str(3.00)` is `"3.0"`).
Only applied to catalog prices, which are all of this form. -/
def pyFloatStr (q : ℚ) : List Char :=
  Nat.toDigits 10 q.num.toNat ++ ['.', '0']

/-- The sku built at `app.py:196`:
`product_name.lower().replace(' ', '_')`. -/
def pySku (name : List Char) : List Char :=
  (name.map Char.toLower).map (fun c => if c = ' ' then '_' else c)

/-- One entry of the `item_list` of the payment (`app.py:194-201`). -/
structure LineItem where
  name : List Char
  sku : List Char
  price : List Char
  currency : List Char
  quantity : ℕ
  description : List Char
deriving DecidableEq

/-- The single transaction of the payment (`app.py:192-209`). -/
structure Transaction where
  items : List LineItem
  total : List Char
  currency : List Char
  description : List Char
  custom : List Char
deriving DecidableEq

/-- The `paypalrestsdk.Payment` body built at `app.py:183-210`. -/
structure PaymentBody where
  returnUrl : List Char
  cancelUrl : List Char
  tx : Transaction
deriving DecidableEq

/-- The transaction `create_payment` builds for a product
(`app.py:192-209`). -/
def mkTransaction (product_name username : List Char) (product : Product) :
    Transaction :=
  { items :=
      [ { name := product_name
          sku := pySku product_name
          price := pyFloatStr product.price
          currency := chars "USD"
          quantity := 1
          description := product.description } ]
    total := pyFloatStr product.price
    currency := chars "USD"
    description := product_name ++ chars " purchase for " ++ username
    custom := encodeCustom username product_name }

/-- The full payment body built at `app.py:183-210`, with the redirect
URLs derived from `request.url_root`. -/
def mkPaymentBody (product_name username urlRoot : List Char)
    (product : Product) : PaymentBody :=
  { returnUrl := urlRoot ++ chars "execute-payment"
    cancelUrl := urlRoot ++ chars "cancel-payment"
    tx := mkTransaction product_name username product }

/-- A hyperlink in the provider's response to `payment.create()`. -/
structure Link where
  rel : List Char
  href : List Char
deriving DecidableEq

/-- Provider behaviour for the create step: whether `payment.create()`
returns `True`, and the link set it attaches to the payment. -/
structure CreateBehavior where
  createOk : Bool
  links : List Link
deriving DecidableEq

/-- Responses `create_payment` (`app.py:170-222`) can produce. -/
inductive CreateResult
  | invalidProduct
  | approvalUrl (url : List Char)
  | noResponse
  | creationFailed
  | internalError
deriving DecidableEq

/-- HTTP status of each `create_payment` response.  The fall-through
where no `approval_url` link exists makes the view return `None`, which
Flask turns into a 500 server error. -/
def CreateResult.httpStatus : CreateResult → ℕ
  | .invalidProduct => 400
  | .approvalUrl _ => 200
  | .noResponse => 500
  | .creationFailed => 500
  | .internalError => 500

/-- The `"error"` string of each failing `create_payment` response. -/
def CreateResult.message : CreateResult → List Char
  | .invalidProduct => chars "Invalid product"
  | .approvalUrl _ => []
  | .noResponse => []
  | .creationFailed => chars "Payment creation failed"
  | .internalError => chars "Internal server error"

/-- What `create_payment` did: its response together with the payment
body submitted to the provider (`none` when the provider was never
contacted). -/
structure CreateOutcome where
  result : CreateResult
  submitted : Option PaymentBody
deriving DecidableEq

/-- The first link whose relation is `"approval_url"` (the `for` loop
at `app.py:213-215`). -/
def findApprovalUrl (links : List Link) : Option (List Char) :=
  (links.find? (fun l => l.rel = chars "approval_url")).map (·.href)

/-- `create_payment` (`app.py:170-222`).  `product` is
`data.get('product')` (restricted to string-or-absent: a non-string
value is never a dict key, so it takes the same invalid-product branch
as an unknown name), `username` is `data.get('username', 'Anonymous')`.
The guard `if not product_name or product_name not in PRODUCTS` is
checked before the provider is contacted. -/
def createPayment (product : Option (List Char)) (username : Option (List Char))
    (urlRoot : List Char) (b : CreateBehavior) : CreateOutcome :=
  let uname := username.getD (chars "Anonymous")
  match product with
  | none => ⟨.invalidProduct, none⟩
  | some name =>
    if name.isEmpty ∨ catalogLookup name = none then ⟨.invalidProduct, none⟩
    else
      match catalogLookup name with
      | none => ⟨.invalidProduct, none⟩
      | some prod =>
        let body := mkPaymentBody name uname urlRoot prod
        if b.createOk then
          match findApprovalUrl b.links with
          | some url => ⟨.approvalUrl url, some body⟩
          | none => ⟨.noResponse, some body⟩
        else ⟨.creationFailed, some body⟩

/-- Provider and webhook behaviour for the execute step
(`app.py:224-270`): whether `payment.execute({"payer_id": ...})`
returns `True`, the `custom` string and `amount.total` echoed on the
found payment's first transaction, the provider transaction id, and
what the notification POST would do if attempted. -/
structure ExecBehavior where
  executeOk : Bool
  custom : List Char
  total : List Char
  txId : List Char
  notifyOutcome : WebhookOutcome
deriving DecidableEq

/-- Responses `execute_payment` (`app.py:224-270`) can produce, one
constructor per `return` site. -/
inductive ExecResult
  | missingInfo
  | successPage (username product_name : List Char) (price : ℚ) (txId : List Char)
  | executionFailed
  | executionError
deriving DecidableEq

/-- HTTP status of each `execute_payment` response. -/
def ExecResult.httpStatus : ExecResult → ℕ
  | .missingInfo => 400
  | .successPage _ _ _ _ => 200
  | .executionFailed => 500
  | .executionError => 500

/-- The plain-text body of each failing `execute_payment` response. -/
def ExecResult.message : ExecResult → List Char
  | .missingInfo => chars "Payment execution failed: Missing payment information"
  | .successPage _ _ _ _ => []
  | .executionFailed => chars "Payment execution failed"
  | .executionError => chars "Payment execution error"

/-- `true` for the HTML success confirmation of `app.py:252-263`. -/
def ExecResult.isSuccessPage : ExecResult → Bool
  | .successPage _ _ _ _ => true
  | _ => false

/-- What `execute_payment` did: its response, whether
`paypalrestsdk.Payment.find` and `payment.execute` were invoked, and
whether the Discord notification POST was attempted. -/
structure ExecOutcome where
  result : ExecResult
  findCalled : Bool
  executeCalled : Bool
  notifyAttempted : Bool
deriving DecidableEq

/-- Python truthiness of `request.args.get(...)`: absent (`None`) or
empty string is falsy (`app.py:231`). -/
def truthyOptStr : Option (List Char) → Bool
  | none => false
  | some s => !s.isEmpty

/-- `execute_payment` (`app.py:224-270`).  Both query parameters are
checked for truthiness before any provider call; on a successful
execute, the echoed `custom` string is unpacked by `split('|')` (a
split into anything but exactly two parts raises `ValueError`), then
`amount.total` goes through `float` (a parse failure raises
`ValueError`); either exception is caught only by the blanket
`except Exception` of `app.py:268-270`, which answers the generic
`"Payment execution error"` 500.  The notification at `app.py:243-250`
is attempted exactly when the webhook is configured, and its outcome is
discarded by `except: pass`. -/
def executePayment (paymentId payerId : Option (List Char))
    (webhook : List Char) (b : ExecBehavior) : ExecOutcome :=
  if truthyOptStr paymentId = false ∨ truthyOptStr payerId = false then
    ⟨.missingInfo, false, false, false⟩
  else if b.executeOk then
    match decodeCustom b.custom with
    | some (u, p) =>
      match parsePyFloat b.total with
      | some price =>
        ⟨.successPage u p price b.txId, true, true, !webhook.isEmpty⟩
      | none => ⟨.executionError, true, true, false⟩
    | none => ⟨.executionError, true, true, false⟩
  else ⟨.executionFailed, true, true, false⟩

theorem splitOnChar_ne_nil (d : Char) (s : List Char) : splitOnChar d s ≠ [] := by
  cases s with
  | nil => simp [splitOnChar]
  | cons c rest =>
    simp only [splitOnChar]
    split
    · simp
    · cases h : splitOnChar d rest <;> simp

theorem splitOnChar_not_mem (d : Char) (s : List Char) (h : d ∉ s) :
    splitOnChar d s = [s] := by
  induction s with
  | nil => rfl
  | cons c rest ih =>
    have hc : ¬ c = d := fun hcd => h (by simp [hcd])
    have hrest : d ∉ rest := fun hm => h (List.mem_cons_of_mem _ hm)
    simp only [splitOnChar, if_neg hc, ih hrest]

theorem splitOnChar_append (d : Char) (u p : List Char) (h : d ∉ u) :
    splitOnChar d (u ++ d :: p) = u :: splitOnChar d p := by
  induction u with
  | nil => simp [splitOnChar]
  | cons c rest ih =>
    have hc : ¬ c = d := fun hcd => h (by simp [hcd])
    have hrest : d ∉ rest := fun hm => h (List.mem_cons_of_mem _ hm)
    simp only [List.cons_append, splitOnChar, if_neg hc, List.append_eq, ih hrest]

/-- C1: Round-trip of purchase metadata: encoding `(username,
product_name)` as `username ++ "|" ++ product_name` (as `create_payment`
does) and then decoding by splitting on the delimiter (as
`execute_payment` does) returns the original pair, whenever neither
field contains the delimiter `'|'`. -/
theorem c1_metadata_roundtrip (username product_name : List Char)
    (hu : '|' ∉ username) (hp : '|' ∉ product_name) :
    decodeCustom (encodeCustom username product_name) =
      some (username, product_name) := by
  unfold decodeCustom encodeCustom splitPipe
  rw [splitOnChar_append _ _ _ hu, splitOnChar_not_mem _ _ hp]

/-- Witness for C1 at `username = "alice"`, `product_name = "Mod"`. -/
theorem c1_metadata_roundtrip_witness :
    decodeCustom (encodeCustom (chars "alice") (chars "Mod")) =
      some (chars "alice", chars "Mod") :=
  c1_metadata_roundtrip (chars "alice") (chars "Mod") (by decide) (by decide)

theorem pyStrip_nil : pyStrip [] = [] := rfl

/-- C2, amended: for a `/purchase` request whose `username` and `item`
are strings that are non-empty after stripping and whose `price` field
is truthy (Python truthiness; in particular the JSON number `0` is
excluded) and coerces to a decimal `x ≥ 0`, the handler succeeds iff
the webhook URL is configured and the POST returns status 200 or 204. -/
theorem c2_success_iff_notify (us its : List Char) (pv : Json) (x : ℚ) (env : Env)
    (hu : (pyStrip us).isEmpty = false) (hi : (pyStrip its).isEmpty = false)
    (hp : truthy pv = true) (hx : jsonFloat pv = some x) (hx0 : 0 ≤ x) :
    (handlePurchase ⟨some (.jstr us), some (.jstr its), some pv⟩ env).succeeded = true ↔
      (env.webhook.isEmpty = false ∧
        (env.webhookResult = .status 200 ∨ env.webhookResult = .status 204)) := by
  have hus : us.isEmpty = false := by
    cases us with
    | nil => rw [pyStrip_nil] at hu; exact absurd hu (by simp)
    | cons a l => rfl
  have hits : its.isEmpty = false := by
    cases its with
    | nil => rw [pyStrip_nil] at hi; exact absurd hi (by simp)
    | cons a l => rfl
  have tu : truthy (Json.jstr us) = true := by simp [truthy, hus]
  have ti : truthy (Json.jstr its) = true := by simp [truthy, hits]
  rcases env with ⟨wh, wres⟩
  simp only [handlePurchase, fieldMissing, tu, ti, hp, Bool.not_true,
    Bool.not_false, if_false, if_true, List.append_nil, List.nil_append,
    ne_eq, not_true_eq_false, not_false_eq_true, ite_false, ite_true]
  simp only [hu, hi, hx, Bool.false_eq_true, if_false, if_neg (not_lt.mpr hx0)]
  cases hw : wh.isEmpty with
  | true => simp [PurchaseResult.succeeded, hw]
  | false =>
    cases wres with
    | status c =>
      by_cases hc : c = 200 ∨ c = 204
      · simp [PurchaseResult.succeeded, hc, hw]
      · have h200 : ¬ c = 200 := fun h => hc (Or.inl h)
        have h204 : ¬ c = 204 := fun h => hc (Or.inr h)
        simp [PurchaseResult.succeeded, hc, hw, h200, h204]
    | timeout => simp [PurchaseResult.succeeded, hw]
    | transportError => simp [PurchaseResult.succeeded, hw]

/-- Witness for C2's amended theorem at `username = "bob"`,
`item = "Mod"`, `price = 3`, webhook configured returning 200. -/
theorem c2_success_iff_notify_witness :
    (handlePurchase ⟨some (.jstr (chars "bob")), some (.jstr (chars "Mod")),
        some (.jnum 3)⟩ ⟨chars "https://hook", .status 200⟩).succeeded = true ↔
      ((chars "https://hook").isEmpty = false ∧
        (WebhookOutcome.status 200 = .status 200 ∨
          WebhookOutcome.status 200 = .status 204)) :=
  c2_success_iff_notify (chars "bob") (chars "Mod") (.jnum 3) 3
    ⟨chars "https://hook", .status 200⟩ (by decide) (by decide) (by decide)
    (by decide) (by decide)

/-- C2, counterexample to the claim as stated: with `price = 0` (a JSON
number), a fully valid request and a configured webhook answering 200,
the handler does not succeed — the truthiness-based check of
`app.py:83` classifies `price` as a missing field and returns the 400
missing-fields response. -/
theorem c2_counterexample :
    handlePurchase ⟨some (.jstr (chars "bob")), some (.jstr (chars "Mod")),
        some (.jnum 0)⟩ ⟨chars "https://hook", .status 200⟩ =
      .missingFields [chars "price"] ∧
    (handlePurchase ⟨some (.jstr (chars "bob")), some (.jstr (chars "Mod")),
        some (.jnum 0)⟩ ⟨chars "https://hook", .status 200⟩).succeeded = false := by
  decide

/-- C9, amended: POST `/purchase` with `{"username": "", "item": "Mod",
"price": 3}` returns HTTP 400, but the error is the missing-fields
message `"Missing required fields: username"` — the empty username is
reported as a missing field, and the dedicated `"Username cannot be
empty"` branch of `app.py:96` is unreachable for this input. -/
theorem c9_empty_username_400 :
    ∀ env : Env,
      handlePurchase ⟨some (.jstr []), some (.jstr (chars "Mod")),
          some (.jnum 3)⟩ env =
        .missingFields [chars "username"] ∧
      (handlePurchase ⟨some (.jstr []), some (.jstr (chars "Mod")),
          some (.jnum 3)⟩ env).httpStatus = 400 :=
  fun _ => ⟨rfl, rfl⟩

/-- C9, counterexample to the claim as stated: the 400 response's error
message is `"Missing required fields: username"`, which does not
mention emptiness (the word "empty" does not occur in it, in any
letter case). -/
theorem c9_counterexample :
    (handlePurchase ⟨some (.jstr []), some (.jstr (chars "Mod")),
        some (.jnum 3)⟩ ⟨chars "https://hook", .status 200⟩).message =
      chars "Missing required fields: username" ∧
    containsSeq (chars "empty")
      ((handlePurchase ⟨some (.jstr []), some (.jstr (chars "Mod")),
          some (.jnum 3)⟩ ⟨chars "https://hook", .status 200⟩).message.map
        Char.toLower) = false := by
  decide

/-- C10, amended: when all three fields are present and truthy but
`username` or `item` is not a string, the `.strip()` call raises, the
catch-all absorbs it, and the response is the HTTP 500 internal error. -/
theorem c10_nonstring_500 (req : PurchaseReq) (env : Env)
    (uv iv pv : Json)
    (h1 : req.username = some uv) (h2 : req.item = some iv)
    (h3 : req.price = some pv)
    (t1 : truthy uv = true) (t2 : truthy iv = true) (t3 : truthy pv = true)
    (hns : uv.isStr = false ∨ iv.isStr = false) :
    handlePurchase req env = .internalError ∧
      (handlePurchase req env).httpStatus = 500 := by
  rcases req with ⟨ru, ri, rp⟩
  cases h1; cases h2; cases h3
  have hres : handlePurchase ⟨some uv, some iv, some pv⟩ env = .internalError := by
    simp only [handlePurchase, fieldMissing, t1, t2, t3, Bool.not_true,
      if_false, List.append_nil, ne_eq, not_true_eq_false, not_false_eq_true,
      ite_false, ite_true]
    cases uv <;> cases iv <;> simp_all [Json.isStr, truthy]
  exact ⟨hres, by rw [hres]; rfl⟩

/-- Witness for C10's amended theorem: `username = 5` (a number),
`item = "Mod"`, `price = 3`. -/
theorem c10_nonstring_500_witness :
    handlePurchase ⟨some (.jnum 5), some (.jstr (chars "Mod")), some (.jnum 3)⟩
        ⟨chars "https://hook", .status 200⟩ = .internalError ∧
      (handlePurchase ⟨some (.jnum 5), some (.jstr (chars "Mod")),
          some (.jnum 3)⟩ ⟨chars "https://hook", .status 200⟩).httpStatus = 500 :=
  c10_nonstring_500 _ _ (.jnum 5) (.jstr (chars "Mod")) (.jnum 3)
    rfl rfl rfl (by decide) (by decide) (by decide) (Or.inl (by decide))

/-- C3: for every `product_name` that is absent, empty or not a key of
the Catalog, `create_payment` answers the `Invalid product` error with
HTTP 400 and the provider is never contacted, whatever the provider
would have done and whatever the other inputs are. -/
theorem c3_invalid_product (product : Option (List Char))
    (username : Option (List Char)) (urlRoot : List Char) (b : CreateBehavior)
    (h : ∀ name, product = some name → catalogLookup name = none) :
    createPayment product username urlRoot b = ⟨.invalidProduct, none⟩ ∧
      (createPayment product username urlRoot b).result.httpStatus = 400 ∧
      (createPayment product username urlRoot b).result.message =
        chars "Invalid product" := by
  have hres : createPayment product username urlRoot b = ⟨.invalidProduct, none⟩ := by
    cases product with
    | none => rfl
    | some name =>
      have hn := h name rfl
      simp [createPayment, hn]
  exact ⟨hres, by rw [hres]; rfl, by rw [hres]; rfl⟩

/-- Witness for C3 at the unknown product name `"Nope"`. -/
theorem c3_invalid_product_witness :
    createPayment (some (chars "Nope")) (some (chars "alice"))
        (chars "https://shop/") ⟨true, []⟩ = ⟨.invalidProduct, none⟩ ∧
      (createPayment (some (chars "Nope")) (some (chars "alice"))
        (chars "https://shop/") ⟨true, []⟩).result.httpStatus = 400 ∧
      (createPayment (some (chars "Nope")) (some (chars "alice"))
        (chars "https://shop/") ⟨true, []⟩).result.message =
        chars "Invalid product" :=
  c3_invalid_product (some (chars "Nope")) (some (chars "alice"))
    (chars "https://shop/") ⟨true, []⟩ (by intro n hn; cases hn; decide)

/-- C4, amended: `create_payment("Mod", "alice")` submits to the
provider a payment whose single line item is
`{name: "Mod", sku: "mod", price: "3.0", currency: "USD", quantity: 1}`,
whose transaction total is `"3.0"` (Python's `str(3.00)`, not
`"3.00"`), and whose custom metadata is exactly `"alice|Mod"` — for
every provider behaviour and URL root. -/
theorem c4_mod_alice_intent (urlRoot : List Char) (b : CreateBehavior) :
    ∃ body, (createPayment (some (chars "Mod")) (some (chars "alice"))
        urlRoot b).submitted = some body ∧
      body.tx.items =
        [ { name := chars "Mod", sku := chars "mod", price := chars "3.0",
            currency := chars "USD", quantity := 1,
            description := chars "Get Fly, Larger Anti-Raid Zone, Teleport and Mod Kits" } ] ∧
      body.tx.total = chars "3.0" ∧
      body.tx.custom = chars "alice|Mod" := by
  refine ⟨mkPaymentBody (chars "Mod") (chars "alice") urlRoot
    ⟨3, chars "Get Fly, Larger Anti-Raid Zone, Teleport and Mod Kits"⟩, ?_, ?_, ?_, ?_⟩
  · show (createPayment _ _ _ b).submitted = _
    rcases b with ⟨ok, links⟩
    cases ok with
    | false => rfl
    | true =>
      show (match findApprovalUrl links with
        | some url => CreateOutcome.mk (.approvalUrl url) _
        | none => CreateOutcome.mk .noResponse _).submitted = _
      cases findApprovalUrl links <;> rfl
  · rfl
  · rfl
  · rfl

/-- C4, counterexample to the claim as stated: the unit price and total
of the built transaction are `"3.0"`, not `"3.00"` — `app.py:197` uses
`str(product['price'])` on the float `3.00`, and `str(3.00)` is
`"3.0"`. -/
theorem c4_counterexample :
    (mkTransaction (chars "Mod") (chars "alice")
        ⟨3, chars "Get Fly, Larger Anti-Raid Zone, Teleport and Mod Kits"⟩).total ≠
      chars "3.00" := by
  decide

/-- C10, counterexample to the claim as stated: a request whose
`username` is present and not a string but falsy (the JSON number `0`)
never reaches `.strip()` — it is classified as a missing field and the
handler returns a 400 validation error, not 500. -/
theorem c10_counterexample :
    handlePurchase ⟨some (.jnum 0), some (.jstr (chars "Mod")), some (.jnum 3)⟩
        ⟨chars "https://hook", .status 200⟩ =
      .missingFields [chars "username"] ∧
    (handlePurchase ⟨some (.jnum 0), some (.jstr (chars "Mod")),
        some (.jnum 3)⟩ ⟨chars "https://hook", .status 200⟩).httpStatus = 400 := by
  decide

/-- C5: when the `paymentId` or the `PayerID` query parameter is
absent, `execute_payment` answers the missing-payment-information
error with HTTP 400 and neither `find` nor `execute` is invoked (and no
notification is attempted), whatever the provider would have done. -/
theorem c5_missing_params (paymentId payerId : Option (List Char))
    (webhook : List Char) (b : ExecBehavior)
    (h : paymentId = none ∨ payerId = none) :
    executePayment paymentId payerId webhook b =
        ⟨.missingInfo, false, false, false⟩ ∧
      (executePayment paymentId payerId webhook b).result.httpStatus = 400 := by
  have hres : executePayment paymentId payerId webhook b =
      ⟨.missingInfo, false, false, false⟩ := by
    rcases h with h | h <;> subst h <;>
      simp [executePayment, truthyOptStr]
  exact ⟨hres, by rw [hres]; rfl⟩

/-- Witness for C5 with `paymentId` absent. -/
theorem c5_missing_params_witness :
    executePayment none (some (chars "PAYER7")) (chars "https://hook")
        ⟨true, chars "alice|Mod", chars "3.0", chars "PAY-1", .status 204⟩ =
        ⟨.missingInfo, false, false, false⟩ ∧
      (executePayment none (some (chars "PAYER7")) (chars "https://hook")
        ⟨true, chars "alice|Mod", chars "3.0", chars "PAY-1",
          .status 204⟩).result.httpStatus = 400 :=
  c5_missing_params none (some (chars "PAYER7")) (chars "https://hook")
    ⟨true, chars "alice|Mod", chars "3.0", chars "PAY-1", .status 204⟩
    (Or.inl rfl)

/-- C6: when both parameters are present, the provider's execute step
succeeds, the echoed metadata decodes and the total parses, a
configured but failing notification (timeout or transport error) is
swallowed: the handler still answers the HTML success confirmation,
and the notification was indeed attempted. -/
theorem c6_notify_failure_swallowed (pid payer : List Char)
    (webhook : List Char) (b : ExecBehavior)
    (hp1 : pid.isEmpty = false) (hp2 : payer.isEmpty = false)
    (hok : b.executeOk = true)
    (u p : List Char) (hdec : decodeCustom b.custom = some (u, p))
    (x : ℚ) (hx : parsePyFloat b.total = some x)
    (hw : webhook.isEmpty = false)
    (_hfail : b.notifyOutcome = .timeout ∨ b.notifyOutcome = .transportError) :
    executePayment (some pid) (some payer) webhook b =
        ⟨.successPage u p x b.txId, true, true, true⟩ ∧
      (executePayment (some pid) (some payer) webhook b).result.isSuccessPage =
        true := by
  have hres : executePayment (some pid) (some payer) webhook b =
      ⟨.successPage u p x b.txId, true, true, true⟩ := by
    simp [executePayment, truthyOptStr, hp1, hp2, hok, hdec, hx, hw]
  exact ⟨hres, by rw [hres]; rfl⟩

/-- Witness for C6: metadata `"alice|Mod"`, total `"3.0"`, webhook
configured, notification times out. -/
theorem c6_notify_failure_swallowed_witness :
    executePayment (some (chars "PAY-1")) (some (chars "PAYER7"))
        (chars "https://hook")
        ⟨true, chars "alice|Mod", chars "3.0", chars "PAY-1", .timeout⟩ =
        ⟨.successPage (chars "alice") (chars "Mod") 3 (chars "PAY-1"),
          true, true, true⟩ ∧
      (executePayment (some (chars "PAY-1")) (some (chars "PAYER7"))
        (chars "https://hook")
        ⟨true, chars "alice|Mod", chars "3.0", chars "PAY-1",
          .timeout⟩).result.isSuccessPage = true :=
  c6_notify_failure_swallowed (chars "PAY-1") (chars "PAYER7")
    (chars "https://hook")
    ⟨true, chars "alice|Mod", chars "3.0", chars "PAY-1", .timeout⟩
    (by decide) (by decide) (by decide) (chars "alice") (chars "Mod")
    (by decide) 3 (by decide) (by decide) (Or.inl rfl)

/-- C7: when both parameters are present but the provider's execute
step fails, the handler answers the `Payment execution failed` error
with HTTP 500 and no notification is attempted. -/
theorem c7_execute_failure (pid payer : List Char)
    (webhook : List Char) (b : ExecBehavior)
    (hp1 : pid.isEmpty = false) (hp2 : payer.isEmpty = false)
    (hok : b.executeOk = false) :
    executePayment (some pid) (some payer) webhook b =
        ⟨.executionFailed, true, true, false⟩ ∧
      (executePayment (some pid) (some payer) webhook b).result.httpStatus = 500 ∧
      (executePayment (some pid) (some payer) webhook b).result.message =
        chars "Payment execution failed" := by
  have hres : executePayment (some pid) (some payer) webhook b =
      ⟨.executionFailed, true, true, false⟩ := by
    simp [executePayment, truthyOptStr, hp1, hp2, hok]
  exact ⟨hres, by rw [hres]; rfl, by rw [hres]; rfl⟩

/-- Witness for C7 with a provider that rejects the execute step. -/
theorem c7_execute_failure_witness :
    executePayment (some (chars "PAY-1")) (some (chars "PAYER7"))
        (chars "https://hook")
        ⟨false, chars "alice|Mod", chars "3.0", chars "PAY-1", .status 200⟩ =
        ⟨.executionFailed, true, true, false⟩ ∧
      (executePayment (some (chars "PAY-1")) (some (chars "PAYER7"))
        (chars "https://hook")
        ⟨false, chars "alice|Mod", chars "3.0", chars "PAY-1",
          .status 200⟩).result.httpStatus = 500 ∧
      (executePayment (some (chars "PAY-1")) (some (chars "PAYER7"))
        (chars "https://hook")
        ⟨false, chars "alice|Mod", chars "3.0", chars "PAY-1",
          .status 200⟩).result.message = chars "Payment execution failed" :=
  c7_execute_failure (chars "PAY-1") (chars "PAYER7") (chars "https://hook")
    ⟨false, chars "alice|Mod", chars "3.0", chars "PAY-1", .status 200⟩
    (by decide) (by decide) (by decide)

/-- C8, amended: when the execute step succeeds but the echoed metadata
does not split into exactly a `(username, product_name)` pair, the
handler does not crash — the `ValueError` from the tuple unpacking is
caught by the blanket `except Exception` and answered as the generic
`"Payment execution error"` HTTP 500 response, with no notification;
there is no distinct `MalformedPurchaseMetadata` error in the code. -/
theorem c8_malformed_metadata_caught (pid payer : List Char)
    (webhook : List Char) (b : ExecBehavior)
    (hp1 : pid.isEmpty = false) (hp2 : payer.isEmpty = false)
    (hok : b.executeOk = true)
    (hdec : decodeCustom b.custom = none) :
    executePayment (some pid) (some payer) webhook b =
        ⟨.executionError, true, true, false⟩ ∧
      (executePayment (some pid) (some payer) webhook b).result.httpStatus = 500 ∧
      (executePayment (some pid) (some payer) webhook b).result.message =
        chars "Payment execution error" := by
  have hres : executePayment (some pid) (some payer) webhook b =
      ⟨.executionError, true, true, false⟩ := by
    simp [executePayment, truthyOptStr, hp1, hp2, hok, hdec]
  exact ⟨hres, by rw [hres]; rfl, by rw [hres]; rfl⟩

/-- Witness for C8's amended theorem: metadata `"nodelimiter"` (no
`'|'`), which `split('|')` leaves as a single part. -/
theorem c8_malformed_metadata_caught_witness :
    executePayment (some (chars "PAY-1")) (some (chars "PAYER7"))
        (chars "https://hook")
        ⟨true, chars "nodelimiter", chars "3.0", chars "PAY-1", .status 200⟩ =
        ⟨.executionError, true, true, false⟩ ∧
      (executePayment (some (chars "PAY-1")) (some (chars "PAYER7"))
        (chars "https://hook")
        ⟨true, chars "nodelimiter", chars "3.0", chars "PAY-1",
          .status 200⟩).result.httpStatus = 500 ∧
      (executePayment (some (chars "PAY-1")) (some (chars "PAYER7"))
        (chars "https://hook")
        ⟨true, chars "nodelimiter", chars "3.0", chars "PAY-1",
          .status 200⟩).result.message = chars "Payment execution error" :=
  c8_malformed_metadata_caught (chars "PAY-1") (chars "PAYER7")
    (chars "https://hook")
    ⟨true, chars "nodelimiter", chars "3.0", chars "PAY-1", .status 200⟩
    (by decide) (by decide) (by decide) (by decide)

/-- C8, counterexample to the claim as stated: no
`MalformedPurchaseMetadata` error is reported.  On metadata without the
delimiter the handler's response is the generic
`"Payment execution error"` 500 — byte-identical to its response to an
unrelated internal failure (here: well-formed metadata `"a|b"` but an
unparseable amount `"xyz"`), so the metadata failure is not reported as
a distinct data-integrity error. -/
theorem c8_counterexample :
    (executePayment (some (chars "PAY-1")) (some (chars "PAYER7"))
        (chars "https://hook")
        ⟨true, chars "nodelimiter", chars "3.0", chars "PAY-1",
          .status 200⟩).result = .executionError ∧
    (executePayment (some (chars "PAY-1")) (some (chars "PAYER7"))
        (chars "https://hook")
        ⟨true, chars "nodelimiter", chars "3.0", chars "PAY-1",
          .status 200⟩).result =
      (executePayment (some (chars "PAY-1")) (some (chars "PAYER7"))
        (chars "https://hook")
        ⟨true, chars "a|b", chars "xyz", chars "PAY-1",
          .status 200⟩).result := by
  decide

end Oxide
